import Mathlib

/-!
Verification development for the arXiv keyword alerter script
(src/arxiv_alerter.py). The script is embedded shallowly: every
external interaction (HTTP search response, HTML fetch response,
generation-API response, SMTP submission) is modelled as an explicit
input or as an entry in an effect trace, and the script logic is
translated into total executable functions. Machine timestamps are
modelled as integral epoch seconds; raised Python exceptions that the
script does not catch are modelled with Except.
-/

namespace ArxivAlerter

/-! ## String primitives

The Python string operations used by the script (str.split, str.strip,
str.lower, str.join, substring membership) are given explicit,
kernel-computable definitions over the character list of a String.
-/

/-- Whitespace test matching the characters str.strip removes for the
ASCII inputs the script handles. -/
def isSpaceChar (c : Char) : Bool :=
  [' ', '\t', '\n', '\r'].contains c

/-- Drops leading whitespace characters from a character list. -/
def dropLeadingSpace : List Char → List Char
  | [] => []
  | c :: cs => if isSpaceChar c then dropLeadingSpace cs else c :: cs

/-- Embedding of the Python str.strip method: removes whitespace from
both ends of a string. -/
def pyStrip (s : String) : String :=
  ⟨(dropLeadingSpace (dropLeadingSpace s.data.reverse).reverse)⟩

/-- Embedding of the Python str.lower method (ASCII case folding). -/
def pyLower (s : String) : String :=
  ⟨s.data.map Char.toLower⟩

/-- Embedding of the Python str.split method on a comma separator:
value.split(",") over the character list. -/
def splitCommaChars : List Char → List (List Char)
  | [] => [[]]
  | c :: cs =>
    let rest := splitCommaChars cs
    if c == ',' then [] :: rest
    else
      match rest with
      | [] => [[c]]
      | r :: rs => (c :: r) :: rs

/-- Tests whether the first list is an initial segment of the second. -/
def matchFront : List Char → List Char → Bool
  | [], _ => true
  | _ :: _, [] => false
  | c :: cs, d :: ds => c == d && matchFront cs ds

/-- Tests whether the pattern occurs as a contiguous run inside the
list; embeds the Python substring membership operator. -/
def hasSubList (pat : List Char) : List Char → Bool
  | [] => matchFront pat []
  | l@(_ :: rest) => matchFront pat l || hasSubList pat rest

/-- Substring containment on strings: pat occurs inside text. -/
def strContainsSub (text pat : String) : Bool :=
  hasSubList pat.data text.data

/-- Suffix of the list after the last occurrence of the marker, when
the marker occurs; none otherwise. Embeds link.split(sep).take_last for
the non-overlapping markers the script uses. -/
def afterLastAux (marker : List Char) : List Char → Option (List Char)
  | [] => none
  | l@(_ :: rest) =>
    match afterLastAux marker rest with
    | some r => some r
    | none => if matchFront marker l then some (l.drop marker.length) else none

/-- Embedding of link.split("/abs/")[-1]: the text after the last
occurrence of "/abs/", or the whole link when the separator is absent. -/
def arxivIdFromLink (link : String) : String :=
  match afterLastAux ("/abs/").data link.data with
  | some suffixChars => ⟨suffixChars⟩
  | none => link

/-- Embedding of sep.join(items) from Python. -/
def joinSep (sep : String) : List String → String
  | [] => ""
  | [s] => s
  | s :: rest => s ++ sep ++ joinSep sep rest

/-- Concatenation of a list of strings in order. -/
def concatAll : List String → String
  | [] => ""
  | s :: rest => s ++ concatAll rest

/-- Zero-pads a nonnegative integer to at least two digits. -/
def pad2 (n : Int) : String :=
  let s := toString n
  if s.length < 2 then "0" ++ s else s

/-- Helper producing the leading zeros for pad4. -/
def pad4Fill (s : String) : String :=
  if s.length = 1 then "000" ++ s
  else if s.length = 2 then "00" ++ s
  else if s.length = 3 then "0" ++ s
  else s

/-- Zero-pads a nonnegative integer to at least four digits. -/
def pad4 (n : Int) : String :=
  let s := toString n
  if s.length < 4 then pad4Fill s else s

/-! ## Calendar arithmetic

Timestamps are epoch seconds (UTC). A calendar date is identified with
its day index relative to 1970-01-01; conversion between the civil
(year, month, day) form and the day index follows the standard
Gregorian algorithms, so the embedding matches datetime semantics.
-/

/-- Day index of the civil date (y, m, d) relative to 1970-01-01. -/
def daysFromCivil (y m d : Int) : Int :=
  let yy := if m ≤ 2 then y - 1 else y
  let era := yy.fdiv 400
  let yoe := yy - era * 400
  let mp := (m + 9).emod 12
  let doy := (153 * mp + 2).fdiv 5 + d - 1
  let doe := yoe * 365 + yoe.fdiv 4 - yoe.fdiv 100 + doy
  era * 146097 + doe - 719468

/-- Civil date (y, m, d) of a day index relative to 1970-01-01. -/
def civilFromDays (z0 : Int) : Int × Int × Int :=
  let z := z0 + 719468
  let era := z.fdiv 146097
  let doe := z - era * 146097
  let yoe := (doe - doe.fdiv 1460 + doe.fdiv 36524 - doe.fdiv 146096).fdiv 365
  let y := yoe + era * 400
  let doy := doe - (365 * yoe + yoe.fdiv 4 - yoe.fdiv 100)
  let mp := (5 * doy + 2).fdiv 153
  let d := doy - (153 * mp + 2).fdiv 5 + 1
  let m := if mp < 10 then mp + 3 else mp - 9
  (if m ≤ 2 then y + 1 else y, m, d)

/-- UTC epoch seconds of the instant y-m-d hh:mi:ss (UTC). -/
def epochOf (y m d hh mi ss : Int) : Int :=
  daysFromCivil y m d * 86400 + hh * 3600 + mi * 60 + ss

/-- Fixed local zone offset of the script: UTC+9 (JST), in seconds.
Embeds LOCAL_TIMEZONE = timezone(timedelta(hours=9)). -/
def LOCAL_TZ_OFFSET_SECONDS : Int := 9 * 3600

/-- Local (UTC+9) calendar day index of a UTC instant. Embeds
published_dt.astimezone(LOCAL_TIMEZONE).date() up to the identification
of a calendar date with its day index. -/
def toLocalDate (utcSeconds : Int) : Int :=
  (utcSeconds + LOCAL_TZ_OFFSET_SECONDS).fdiv 86400

/-- Embedding of (datetime.now(LOCAL_TIMEZONE) - timedelta(days=1)).date()
from search_arxiv, as a function of the current UTC instant. -/
def target_date (now : Int) : Int :=
  toLocalDate (now - 86400)

/-- Embedding of published_dt.strftime with the script format string,
producing "YYYY-MM-DD HH:MM:SS UTC". -/
def formatUTC (t : Int) : String :=
  let day := t.fdiv 86400
  let tod := t - day * 86400
  let c := civilFromDays day
  pad4 c.1 ++ "-" ++ pad2 c.2.1 ++ "-" ++ pad2 c.2.2 ++ " " ++
    pad2 (tod.fdiv 3600) ++ ":" ++ pad2 ((tod.emod 3600).fdiv 60) ++ ":" ++
    pad2 (tod.emod 60) ++ " UTC"

/-! ## Configuration parsing -/

/-- Embedding of parse_csv_env: split a comma separated string, trim
each item, and drop empty items. -/
def parse_csv_env (value : String) : List String :=
  ((splitCommaChars value.data).map (fun cs => pyStrip ⟨cs⟩)).filter (fun s => !(s == ""))

/-- Embedding of parse_bool_env. -/
def parse_bool_env (value : String) : Bool :=
  let v := pyLower (pyStrip value)
  v == "1" || v == "true" || v == "yes" || v == "on"

/-! ## Data model -/

/-- Embedding of the PaperInfo TypedDict. -/
structure PaperInfo where
  id : String
  title : String
  summary : String
  authors : List String
  link : String
  html_link : String
  published : String
  deriving Repr, DecidableEq

/-- One entry of the Atom feed, as seen by the entry parsing stage.
Each required element is an Option: none models a missing element or an
element whose text is None (get_required_entry_text raises there). The
published field holds the already parsed UTC epoch instant; none models
a missing published element or a timestamp that strptime rejects. An
author entry of none models an author name element without text. -/
structure RawEntry where
  idLink : Option String
  title : Option String
  summary : Option String
  authors : List (Option String)
  published : Option Int
  deriving Repr, DecidableEq

/-- Embedding of build_paper_info plus the get_required_entry_text
calls it performs: any missing required element turns the raised
ValueError into none. -/
def build_paper_info (entry : RawEntry) (published_dt : Int) : Option PaperInfo :=
  match entry.idLink, entry.title, entry.summary with
  | some linkRaw, some titleRaw, some summaryRaw =>
    let link := pyStrip linkRaw
    let arxiv_id := arxivIdFromLink link
    some
      { id := arxiv_id
        title := pyStrip titleRaw
        summary := pyStrip summaryRaw
        authors := entry.authors.filterMap (fun a =>
          match a with
          | none => none
          | some n => if pyStrip n == "" then none else some (pyStrip n))
        link := link
        html_link := "https://arxiv.org/html/" ++ arxiv_id
        published := formatUTC published_dt }
  | _, _, _ => none

/-! ## Query builder -/

/-- Embedding of build_search_query, parameterised by the two
configuration strings SEARCH_KEYWORDS and SEARCH_CATEGORY it reads. -/
def build_search_query (searchKeywords searchCategory : String) : String :=
  let keyword_terms := parse_csv_env searchKeywords
  let keywords := keyword_terms.map (fun k => "(ti:\"" ++ k ++ "\" OR abs:\"" ++ k ++ "\")")
  let query := "(" ++ joinSep " OR " keywords ++ ")"
  if !(searchCategory == "") && !(pyLower searchCategory == "all") then
    let category_terms := parse_csv_env searchCategory
    let categories := category_terms.map (fun c => "cat:" ++ c)
    query ++ " AND (" ++ joinSep " OR " categories ++ ")"
  else
    query

/-- Query builder written from the words of the specification: split on
commas, trim, drop empties, one title-or-abstract disjunct per keyword,
joined with OR inside one pair of parentheses; a category clause is
appended exactly when the category string is non-empty and not equal to
"all" case-insensitively. -/
def build_search_query_spec (searchKeywords searchCategory : String) : String :=
  let base := "(" ++ joinSep " OR "
    ((parse_csv_env searchKeywords).map
      (fun k => "(ti:\"" ++ k ++ "\" OR abs:\"" ++ k ++ "\")")) ++ ")"
  if searchCategory ≠ "" ∧ pyLower searchCategory ≠ "all" then
    base ++ " AND (" ++ joinSep " OR "
      ((parse_csv_env searchCategory).map (fun c => "cat:" ++ c)) ++ ")"
  else
    base

/-! ## Search client -/

/-- Outcome of the single HTTP GET against the search API, as the
script distinguishes it: a transport failure (timeout, connection
error, or non-2xx status raised by raise_for_status) caught by the
except RequestException handler; a 2xx body that ET.fromstring cannot
parse as XML; or a parsed feed with its list of entries. -/
inductive SearchResponse
  | transportError
  | malformedXml
  | okFeed (entries : List RawEntry)
  deriving Repr, DecidableEq

/-- Embedding of the per-entry body of the loop in search_arxiv: the
entry is kept exactly when its published instant exists, parses, falls
on the target local date, and every required field is present; any
raised exception inside the loop body becomes none (the entry is
skipped). -/
def processEntry (target : Int) (entry : RawEntry) : Option PaperInfo :=
  match entry.published with
  | none => none
  | some published_dt =>
    if toLocalDate published_dt = target then build_paper_info entry published_dt
    else none

/-- Embedding of search_arxiv as a function of the search response and
the current UTC instant. The transport try-except yields the empty
list; ET.fromstring sits outside every try block, so a malformed XML
body raises an uncaught ParseError, modelled as Except.error. -/
def search_arxiv (resp : SearchResponse) (now : Int) : Except String (List PaperInfo) :=
  match resp with
  | SearchResponse.transportError => Except.ok []
  | SearchResponse.malformedXml => Except.error "xml.etree.ElementTree.ParseError"
  | SearchResponse.okFeed entries =>
    Except.ok (entries.filterMap (processEntry (target_date now)))

/-! ## Full-text fetcher -/

/-- Tag of an element inside the ltx_page_content container; the
script decomposes header, footer and nav elements before extracting
text. -/
inductive HtmlTag
  | headerTag
  | footerTag
  | navTag
  | otherTag
  deriving Repr, DecidableEq

/-- One text-carrying element of the fetched HTML document. -/
structure HtmlNode where
  tag : HtmlTag
  text : String
  deriving Repr, DecidableEq

/-- Parsed shape of the fetched HTML page: the optional div with class
ltx_page_content together with its elements, and the visible body text
used as the fallback extraction. -/
structure HtmlDoc where
  contentDiv : Option (List HtmlNode)
  bodyText : String
  deriving Repr, DecidableEq

/-- Outcome of the HTTP GET for the HTML page: a transport failure
(timeout, connection error, or non-2xx status raised by
raise_for_status), an exception raised while parsing or extracting, or
a parsed document. -/
inductive FetchResponse
  | transportError
  | parseError
  | okPage (doc : HtmlDoc)
  deriving Repr, DecidableEq

/-- True on the element tags that fetch_paper_full_text decomposes. -/
def isChromeTag : HtmlTag → Bool
  | HtmlTag.headerTag => true
  | HtmlTag.footerTag => true
  | HtmlTag.navTag => true
  | HtmlTag.otherTag => false

/-- Embedding of get_text(separator=" ", strip=True): each element
text is stripped, empty pieces are dropped, and the rest are joined by
single spaces. -/
def getTextStrip (nodes : List HtmlNode) : String :=
  joinSep " " (((nodes.map (fun n => pyStrip n.text)).filter (fun s => !(s == ""))))

/-- Embedding of fetch_paper_full_text: every transport or parsing
failure is caught and becomes none; on success the ltx_page_content
div, with header, footer and nav elements decomposed, yields the text,
and an absent div falls back to the body text. -/
def fetch_paper_full_text (resp : FetchResponse) : Option String :=
  match resp with
  | FetchResponse.transportError => none
  | FetchResponse.parseError => none
  | FetchResponse.okPage doc =>
    match doc.contentDiv with
    | some nodes => some (getTextStrip (nodes.filter (fun n => !(isChromeTag n.tag))))
    | none => some doc.bodyText

/-- Embedding of the caller fallback in build_email_body: the Python
test "if not full_text" replaces a falsy fetch result, None or the
empty string, by the paper abstract. -/
def summarization_input (fetched : Option String) (abstract : String) : String :=
  match fetched with
  | none => abstract
  | some s => if s = "" then abstract else s

/-! ## Summarizer and effect traces -/

/-- Externally visible actions of the per-paper pipeline and of the
mail dispatcher. The single search GET is modelled by the
SearchResponse input instead. -/
inductive Effect
  | fetchHtml (url : String)
  | genCall
  | sleep (seconds : Nat)
  | smtpSend
  deriving Repr, DecidableEq, BEq

/-- Outcome of the one generate_content call: a raised exception with
its description, or a response whose text is the given optional
string. -/
inductive GenApiResult
  | apiError (msg : String)
  | apiOk (text : Option String)
  deriving Repr, DecidableEq

/-- Fixed inter-paper delay of the script, in seconds. -/
def PER_PAPER_DELAY_SECONDS : Nat := 60

/-- Character budget for the text passed to the generation API. -/
def GEMINI_INPUT_MAX_CHARS : Nat := 100000

/-- Sentinel returned when no API key is configured. -/
def GEMINI_SKIP_SENTINEL : String :=
  "（Geminiによる解説はスキップされました：APIキーが未設定です）"

/-- Sentinel returned when the API response text is empty or missing. -/
def GEMINI_EMPTY_SENTINEL : String :=
  "（Geminiから空の応答が返されました）"

/-- Sentinel embedding the description of a raised API error. -/
def gemini_error_sentinel (e : String) : String :=
  "（Geminiによる解説生成中にエラーが発生しました: " ++ e ++ "）"

/-- Embedding of the prompt construction: the fixed template embeds the
title, the comma-joined authors and the body text truncated to the
character budget. The template literal itself is abbreviated to its
variable parts, which is all any property depends on. -/
def gemini_prompt (paper : PaperInfo) (full_text : String) : String :=
  "以下のarXiv論文について、同分野の研究者が短時間で要点を把握できるように解説してください。\n\n- タイトル: " ++
    paper.title ++ "\n- 著者: " ++ joinSep ", " paper.authors ++ "\n\n" ++
    ⟨full_text.data.take GEMINI_INPUT_MAX_CHARS⟩

/-- Embedding of "response.text or sentinel": a missing or empty
response text becomes the empty-response sentinel. -/
def geminiText : Option String → String
  | none => GEMINI_EMPTY_SENTINEL
  | some txt => if txt = "" then GEMINI_EMPTY_SENTINEL else txt

/-- Embedding of generate_summary_with_gemini. The Boolean input
models the configured-credential test "not GEMINI_API_KEY or
gemini_client is None"; the effect list records the outbound API call
and the one-second pause taken after a call that returns. -/
def generate_summary_with_gemini (hasApiKey : Bool) (paper : PaperInfo)
    (full_text : String) (api : GenApiResult) : String × List Effect :=
  if hasApiKey then
    let _prompt := gemini_prompt paper full_text
    match api with
    | GenApiResult.apiError e => (gemini_error_sentinel e, [Effect.genCall])
    | GenApiResult.apiOk t => (geminiText t, [Effect.genCall, Effect.sleep 1])
  else
    (GEMINI_SKIP_SENTINEL, [])

/-! ## Digest builder -/

/-- The border line of a paper section: fifty equals signs. -/
def sectionBorder : String :=
  ⟨List.replicate 50 '='⟩

/-- The separator closing a summary or abstract block: twenty-six
hyphens. -/
def blockSeparator : String :=
  ⟨List.replicate 26 '-'⟩

/-- Embedding of build_paper_section. -/
def build_paper_section (index : Nat) (paper : PaperInfo) (summary_ja : String) : String :=
  "\n" ++ sectionBorder ++ "\n論文 " ++ toString index ++ ": " ++ paper.title ++
    "\n" ++ sectionBorder ++ "\n\n著者: " ++ joinSep ", " paper.authors ++
    "\n投稿日: " ++ paper.published ++ "\nリンク: " ++ paper.link ++
    "\n\n--- Geminiによる解説 ---\n" ++ summary_ja ++
    "\n" ++ blockSeparator ++ "\n\n--- Original Abstract ---\n" ++ paper.summary ++
    "\n" ++ blockSeparator ++ "\n\n"

/-- Embedding of build_keyword_counts_section, parameterised by the
SEARCH_KEYWORDS configuration string it reads. -/
def build_keyword_counts_section (searchKeywords : String) (papers : List PaperInfo) : String :=
  let keywords := parse_csv_env searchKeywords
  if keywords.isEmpty then ""
  else
    let searchable_texts := papers.map (fun p => pyLower (p.title ++ "\n" ++ p.summary))
    let lines := "【キーワード別対象件数】" :: keywords.map (fun keyword =>
      "- " ++ keyword ++ ": " ++
        toString (searchable_texts.countP (fun text => strContainsSub text (pyLower keyword))) ++
        "件")
    joinSep "\n" lines ++ "\n\n"

/-- Embedding of the overview line opening the email body. -/
def emailHeader (searchKeywords : String) (papers : List PaperInfo) : String :=
  "キーワード「" ++ searchKeywords ++ "」に関する新しい論文が " ++
    toString papers.length ++ "件 見つかりました。\n\n"

/-- Numbered title lines of the index section, starting at the given
one-based index. -/
def titleIndexLines : Nat → List PaperInfo → String
  | _, [] => ""
  | i, p :: rest => toString i ++ ". " ++ p.title ++ "\n" ++ titleIndexLines (i + 1) rest

/-- Embedding of the title index section of the email body. -/
def titleIndex (papers : List PaperInfo) : String :=
  "【対象論文タイトル一覧】\n" ++ titleIndexLines 1 papers ++ "\n"

/-- Embedding of the per-paper loop of build_email_body, carrying the
one-based loop index. Each iteration sleeps the inter-paper delay when
the index exceeds one, fetches the HTML page, substitutes the abstract
for a falsy fetch result, generates the summary, and appends the paper
section. The world responses travel zipped with the papers. -/
def paperLoop (hasApiKey : Bool) :
    Nat → List (PaperInfo × FetchResponse × GenApiResult) → String × List Effect
  | _, [] => ("", [])
  | i, (paper, fetchResp, apiResp) :: rest =>
    let preEff : List Effect := if 1 < i then [Effect.sleep PER_PAPER_DELAY_SECONDS] else []
    let full_text := summarization_input (fetch_paper_full_text fetchResp) paper.summary
    let gen := generate_summary_with_gemini hasApiKey paper full_text apiResp
    let tail := paperLoop hasApiKey (i + 1) rest
    (build_paper_section i paper gen.1 ++ tail.1,
     preEff ++ (Effect.fetchHtml paper.html_link :: (gen.2 ++ tail.2)))

/-- Embedding of build_email_body, parameterised by the configuration
it reads and by the per-paper world responses. -/
def build_email_body (searchKeywords : String) (hasApiKey : Bool)
    (input : List (PaperInfo × FetchResponse × GenApiResult)) : String × List Effect :=
  let papers := input.map Prod.fst
  let looped := paperLoop hasApiKey 1 input
  (emailHeader searchKeywords papers ++ build_keyword_counts_section searchKeywords papers ++
     titleIndex papers ++ looped.1,
   looped.2)

/-! ## Mail dispatcher and orchestrator -/

/-- Embedding of send_email as its trace of externally visible
actions: test mode prints instead of sending, an incomplete mail
configuration skips the send, and otherwise one SMTP submission is
attempted (its own failures are caught and logged). -/
def send_email (testMode mailConfigComplete : Bool) : List Effect :=
  if testMode then []
  else if mailConfigComplete then [Effect.smtpSend]
  else []

/-- Observable outcome of one run of main: whether the digest builder
ran and what it produced, whether the mail dispatcher was entered, the
effect trace after the search step, and the process exit code. -/
structure MainResult where
  digestBuilt : Bool
  digestBody : Option String
  dispatcherInvoked : Bool
  effects : List Effect
  exitCode : Nat
  deriving Repr, DecidableEq

/-- Embedding of main: search, stop on an empty result, otherwise
build the digest and dispatch it. An exception escaping search_arxiv
propagates (the run crashes); every completed run exits with code 0. -/
def main_run (resp : SearchResponse) (now : Int) (searchKeywords : String)
    (hasApiKey testMode mailConfigComplete : Bool)
    (world : List (FetchResponse × GenApiResult)) : Except String MainResult :=
  match search_arxiv resp now with
  | Except.error e => Except.error e
  | Except.ok papers =>
    if papers.isEmpty then
      Except.ok
        { digestBuilt := false, digestBody := none, dispatcherInvoked := false,
          effects := [], exitCode := 0 }
    else
      let body := build_email_body searchKeywords hasApiKey (papers.zip world)
      Except.ok
        { digestBuilt := true, digestBody := some body.1, dispatcherInvoked := true,
          effects := body.2 ++ send_email testMode mailConfigComplete, exitCode := 0 }

/-! ## Specification-side digest assembly

These definitions restate the digest builder of the specification as a
pure function of the paper list, the parallel summary list and the
keyword string, for comparison with the embedded build_email_body.
-/

/-- Formatted sections of consecutive papers paired with their
summaries, starting at the given one-based index. -/
def sectionList : Nat → List (PaperInfo × String) → List String
  | _, [] => []
  | i, (p, s) :: rest => build_paper_section i p s :: sectionList (i + 1) rest

/-- Summary the pipeline produces for one paper given its world
responses: the fetch result, with the abstract substituted for a falsy
result, passed through the summarizer. -/
def pipelineSummary (hasApiKey : Bool)
    (t : PaperInfo × FetchResponse × GenApiResult) : String :=
  (generate_summary_with_gemini hasApiKey t.1
    (summarization_input (fetch_paper_full_text t.2.1) t.1.summary) t.2.2).1

/-- Parallel list of the summaries produced for each paper of the
input. -/
def summaryList (hasApiKey : Bool)
    (input : List (PaperInfo × FetchResponse × GenApiResult)) : List String :=
  input.map (pipelineSummary hasApiKey)

/-- Digest assembly of the specification: a pure function of the paper
list, the parallel summary list and the keyword string, with no
effects. -/
def assembleDigest (searchKeywords : String) (papers : List PaperInfo)
    (summaries : List String) : String :=
  emailHeader searchKeywords papers ++ build_keyword_counts_section searchKeywords papers ++
    titleIndex papers ++ concatAll (sectionList 1 (papers.zip summaries))

/-- Counts the inter-paper delay sleeps in an effect trace. -/
def countSleep60 (effects : List Effect) : Nat :=
  effects.countP (fun e => decide (e = Effect.sleep PER_PAPER_DELAY_SECONDS))

/-- True exactly on HTML fetch effects. -/
def isFetchEffect : Effect → Bool
  | Effect.fetchHtml _ => true
  | _ => false

/-! ## Concrete fixtures used by witnesses and counterexamples -/

/-- Complete sample feed entry published 2024-01-02 10:00:00 UTC. -/
def sampleEntry : RawEntry :=
  { idLink := some "http://arxiv.org/abs/2401.00001v1"
    title := some "Sample Title"
    summary := some "Sample abstract."
    authors := [some "Alice", some "Bob"]
    published := some (epochOf 2024 1 2 10 0 0) }

/-- Sample feed entry missing its required title element. -/
def sampleEntryNoTitle : RawEntry :=
  { idLink := some "http://arxiv.org/abs/2401.00002v1"
    title := none
    summary := some "Another abstract."
    authors := [some "Carol"]
    published := some (epochOf 2024 1 2 11 0 0) }

/-- The sample entry with the title restored, for the one-off count
comparison. -/
def sampleEntryWithTitle : RawEntry :=
  { sampleEntryNoTitle with title := some "Second Title" }

/-- Sample current instant: 2024-01-03 12:00:00 UTC, whose target
local date is 2024-01-02 in UTC+9. -/
def sampleNow : Int := epochOf 2024 1 3 12 0 0

/-- First sample paper record. -/
def samplePaper1 : PaperInfo :=
  { id := "2401.00001v1", title := "T1", summary := "A1",
    authors := ["Alice"], link := "http://arxiv.org/abs/2401.00001v1",
    html_link := "https://arxiv.org/html/2401.00001v1",
    published := "2024-01-02 10:00:00 UTC" }

/-- Second sample paper record. -/
def samplePaper2 : PaperInfo :=
  { id := "2401.00002v1", title := "T2", summary := "A2",
    authors := ["Bob"], link := "http://arxiv.org/abs/2401.00002v1",
    html_link := "https://arxiv.org/html/2401.00002v1",
    published := "2024-01-02 11:00:00 UTC" }

/-- Sample two-paper pipeline input with failing fetches. -/
def sampleInput2 : List (PaperInfo × FetchResponse × GenApiResult) :=
  [(samplePaper1, FetchResponse.transportError, GenApiResult.apiOk (some "S1")),
   (samplePaper2, FetchResponse.transportError, GenApiResult.apiError "boom")]

/-! ## Helper lemmas -/

/-- The computed target date is one local calendar day before the
local date of the current instant. -/
theorem target_date_eq (now : Int) : target_date now = toLocalDate now - 1 := by
  simp only [target_date, toLocalDate, LOCAL_TZ_OFFSET_SECONDS]
  rw [Int.fdiv_eq_ediv _ (by norm_num), Int.fdiv_eq_ediv _ (by norm_num)]
  omega

/-- The text output of the paper loop is the concatenation of the
formatted sections of the papers paired with their pipeline
summaries. -/
theorem paperLoop_fst (hasApiKey : Bool) :
    ∀ (input : List (PaperInfo × FetchResponse × GenApiResult)) (i : Nat),
      (paperLoop hasApiKey i input).1 =
        concatAll (sectionList i (input.map (fun t => (t.1, pipelineSummary hasApiKey t)))) := by
  intro input
  induction input with
  | nil => intro i; rfl
  | cons hd tl ih =>
    intro i
    obtain ⟨p, fr, ar⟩ := hd
    simp [paperLoop, sectionList, concatAll, pipelineSummary, ih]

/-- A section list has one section per paired paper. -/
theorem sectionList_length : ∀ (i : Nat) (l : List (PaperInfo × String)),
    (sectionList i l).length = l.length := by
  intro i l
  induction l generalizing i with
  | nil => rfl
  | cons hd tl ih => obtain ⟨p, s⟩ := hd; simp [sectionList, ih]

/-- The summarizer never sleeps the inter-paper delay. -/
theorem gen_sleep60 (hasApiKey : Bool) (p : PaperInfo) (ft : String) (api : GenApiResult) :
    countSleep60 (generate_summary_with_gemini hasApiKey p ft api).2 = 0 := by
  cases hasApiKey <;> cases api <;> rfl

/-- The summarizer never emits a fetch effect. -/
theorem gen_fetch_count (hasApiKey : Bool) (p : PaperInfo) (ft : String) (api : GenApiResult) :
    (generate_summary_with_gemini hasApiKey p ft api).2.countP isFetchEffect = 0 := by
  cases hasApiKey <;> cases api <;> rfl

/-- Inter-paper sleep counting distributes over trace concatenation. -/
theorem countSleep60_append (l₁ l₂ : List Effect) :
    countSleep60 (l₁ ++ l₂) = countSleep60 l₁ + countSleep60 l₂ := by
  simp [countSleep60, List.countP_append]

/-- A fetch effect is not an inter-paper sleep. -/
theorem countSleep60_fetch (u : String) (l : List Effect) :
    countSleep60 (Effect.fetchHtml u :: l) = countSleep60 l := by
  simp [countSleep60, List.countP_cons,
    show decide (Effect.fetchHtml u = Effect.sleep PER_PAPER_DELAY_SECONDS) = false from rfl]

/-- The paper loop sleeps the inter-paper delay once per processed
paper except the paper at index one. -/
theorem paperLoop_sleep_count (hasApiKey : Bool) :
    ∀ (input : List (PaperInfo × FetchResponse × GenApiResult)) (i : Nat), 1 ≤ i →
      countSleep60 (paperLoop hasApiKey i input).2 =
        if input.isEmpty then 0 else input.length - 1 + (if 1 < i then 1 else 0) := by
  intro input
  induction input with
  | nil => intro i _; rfl
  | cons hd tl ih =>
    intro i hi
    obtain ⟨p, fr, ar⟩ := hd
    have hpre : countSleep60 (if 1 < i then [Effect.sleep PER_PAPER_DELAY_SECONDS] else []) =
        if 1 < i then 1 else 0 := by
      split <;> rfl
    simp only [paperLoop, countSleep60_append, countSleep60_fetch, hpre]
    rw [gen_sleep60, ih (i + 1) (by omega)]
    have h1 : (1:Nat) < i + 1 := by omega
    by_cases hii : 1 < i <;> cases tl <;> simp [hii, h1] <;> omega

/-- The paper loop fetches the HTML page of every paper exactly
once. -/
theorem paperLoop_fetch_count (hasApiKey : Bool) :
    ∀ (input : List (PaperInfo × FetchResponse × GenApiResult)) (i : Nat),
      (paperLoop hasApiKey i input).2.countP isFetchEffect = input.length := by
  intro input
  induction input with
  | nil => intro i; rfl
  | cons hd tl ih =>
    intro i
    obtain ⟨p, fr, ar⟩ := hd
    simp only [paperLoop, List.countP_append, List.countP_cons, gen_fetch_count, ih (i + 1)]
    have hpre : (if 1 < i then [Effect.sleep PER_PAPER_DELAY_SECONDS] else []).countP isFetchEffect
        = 0 := by split <;> rfl
    simp [hpre, isFetchEffect, Nat.add_comm]

/-- An entry with a missing required field is skipped by the entry
parsing stage. -/
theorem processEntry_missing_field (target : Int) (e : RawEntry)
    (h : e.idLink = none ∨ e.title = none ∨ e.summary = none ∨ e.published = none) :
    processEntry target e = none := by
  obtain ⟨il, ti, su, au, pu⟩ := e
  cases pu with
  | none => rfl
  | some p =>
    simp only [processEntry]
    rcases h with h | h | h | h
    · simp only at h; subst h
      split <;> simp [build_paper_info]
    · simp only at h; subst h
      split <;> [cases il <;> simp [build_paper_info]; rfl]
    · simp only at h; subst h
      split <;> [cases il <;> cases ti <;> simp [build_paper_info]; rfl]
    · simp at h

/-! ## Claim theorems -/

/-- C1: for a feed entry carrying every required field, the search
client keeps the entry exactly when the published instant, converted to
UTC+9, falls on the calendar date one local day before the current
instant; the boundary instant 2024-01-02T23:59:59Z has local date
2024-01-03 and is excluded from a 2024-01-02 target. -/
theorem c1_search_filters_on_yesterday_jst (now pub : Int) (e : RawEntry) (link t s : String)
    (hpub : e.published = some pub) (hid : e.idLink = some link)
    (hti : e.title = some t) (hsu : e.summary = some s) :
    ((processEntry (target_date now) e).isSome = true ↔ toLocalDate pub = toLocalDate now - 1)
    ∧ toLocalDate (epochOf 2024 1 2 23 59 59) = daysFromCivil 2024 1 3
    ∧ daysFromCivil 2024 1 3 ≠ daysFromCivil 2024 1 2
    ∧ (∀ e2 : RawEntry, e2.published = some (epochOf 2024 1 2 23 59 59) →
        processEntry (daysFromCivil 2024 1 2) e2 = none) := by
  refine ⟨?_, by decide, by decide, ?_⟩
  · rw [← target_date_eq]
    simp only [processEntry, hpub]
    constructor
    · intro hsome
      by_contra hne
      rw [if_neg hne] at hsome
      simp at hsome
    · intro hdd
      rw [if_pos hdd]
      simp [build_paper_info, hid, hti, hsu]
  · intro e2 h2
    have hne : ¬ toLocalDate (epochOf 2024 1 2 23 59 59) = daysFromCivil 2024 1 2 := by decide
    simp [processEntry, h2, if_neg hne]

/-- C1 witness: the sample entry published 2024-01-02 10:00:00 UTC
against the sample current instant. -/
theorem c1_search_filters_on_yesterday_jst_witness :
    (processEntry (target_date sampleNow) sampleEntry).isSome = true ↔
      toLocalDate (epochOf 2024 1 2 10 0 0) = toLocalDate sampleNow - 1 :=
  (c1_search_filters_on_yesterday_jst sampleNow (epochOf 2024 1 2 10 0 0) sampleEntry
    "http://arxiv.org/abs/2401.00001v1" "Sample Title" "Sample abstract."
    rfl rfl rfl rfl).1

/-- C2: the query builder of the script agrees with the query builder
written from the words of the specification on every pair of keyword
and category strings; it is a total function of the two strings with no
effects. -/
theorem c2_build_search_query_matches_spec (searchKeywords searchCategory : String) :
    build_search_query searchKeywords searchCategory =
      build_search_query_spec searchKeywords searchCategory := by
  simp only [build_search_query, build_search_query_spec]
  by_cases h1 : searchCategory = ""
  · simp [h1]
  · by_cases h2 : pyLower searchCategory = "all"
    · simp [h1, h2]
    · simp [h1, h2]

/-- C3: the transport try-except of search_arxiv converts a transport
failure into the empty list and the entry loop skips an entry missing a
required field, decreasing the count by exactly one; but a 2xx response
whose body is not well-formed XML reaches ET.fromstring outside every
try block, and the raised ParseError escapes the search client. -/
theorem c3_search_error_isolation_at_inputs :
    search_arxiv SearchResponse.transportError sampleNow = Except.ok []
    ∧ search_arxiv SearchResponse.malformedXml sampleNow =
        Except.error "xml.etree.ElementTree.ParseError"
    ∧ (search_arxiv (SearchResponse.okFeed [sampleEntry, sampleEntryNoTitle]) sampleNow).map
        List.length = Except.ok 1
    ∧ (search_arxiv (SearchResponse.okFeed [sampleEntry, sampleEntryWithTitle]) sampleNow).map
        List.length = Except.ok 2 :=
  ⟨rfl, rfl, rfl, rfl⟩

/-- C4: a transport-level fetch failure or a parsing failure makes the
full-text fetcher return none, and the caller substitutes the paper
abstract as the summarization input, which is nonempty whenever the
abstract is. -/
theorem c4_fetch_failure_falls_back_to_abstract (resp : FetchResponse) (abstract : String)
    (h : resp = FetchResponse.transportError ∨ resp = FetchResponse.parseError) :
    fetch_paper_full_text resp = none
    ∧ summarization_input (fetch_paper_full_text resp) abstract = abstract
    ∧ (abstract ≠ "" → summarization_input (fetch_paper_full_text resp) abstract ≠ "") := by
  rcases h with h | h <;> subst h <;> exact ⟨rfl, rfl, fun hne => hne⟩

/-- C4 witness: a transport failure with the sample abstract. -/
theorem c4_fetch_failure_falls_back_to_abstract_witness :
    fetch_paper_full_text FetchResponse.transportError = none
    ∧ summarization_input (fetch_paper_full_text FetchResponse.transportError) "A1" = "A1"
    ∧ ("A1" ≠ "" →
        summarization_input (fetch_paper_full_text FetchResponse.transportError) "A1" ≠ "") :=
  c4_fetch_failure_falls_back_to_abstract FetchResponse.transportError "A1" (Or.inl rfl)

/-- C5: the summarizer always returns a string: the fixed skip
sentinel with no API call when no credential is configured, a sentinel
embedding the error description when the call raises, and the fixed
empty-response sentinel when the response text is missing or empty. -/
theorem c5_summarizer_sentinels (paper : PaperInfo) (full_text : String) (api : GenApiResult) :
    generate_summary_with_gemini false paper full_text api = (GEMINI_SKIP_SENTINEL, [])
    ∧ (∀ e, generate_summary_with_gemini true paper full_text (GenApiResult.apiError e) =
        (gemini_error_sentinel e, [Effect.genCall]))
    ∧ generate_summary_with_gemini true paper full_text (GenApiResult.apiOk none) =
        (GEMINI_EMPTY_SENTINEL, [Effect.genCall, Effect.sleep 1])
    ∧ generate_summary_with_gemini true paper full_text (GenApiResult.apiOk (some "")) =
        (GEMINI_EMPTY_SENTINEL, [Effect.genCall, Effect.sleep 1]) :=
  ⟨rfl, fun _ => rfl, rfl, rfl⟩

/-- C6 counterexample: on a concrete two-paper input the digest
builder of the script, build_email_body, sleeps the inter-paper delay
and fetches over the network, so it is not free of side effects. -/
theorem c6_counterexample_build_email_body_has_effects :
    (build_email_body "a" true sampleInput2).2 =
      [Effect.fetchHtml "https://arxiv.org/html/2401.00001v1", Effect.genCall, Effect.sleep 1,
       Effect.sleep PER_PAPER_DELAY_SECONDS,
       Effect.fetchHtml "https://arxiv.org/html/2401.00002v1", Effect.genCall]
    ∧ Effect.sleep PER_PAPER_DELAY_SECONDS ∈ (build_email_body "a" true sampleInput2).2
    ∧ (build_email_body "a" true sampleInput2).2 ≠ [] := by
  have heff : (build_email_body "a" true sampleInput2).2 =
      [Effect.fetchHtml "https://arxiv.org/html/2401.00001v1", Effect.genCall, Effect.sleep 1,
       Effect.sleep PER_PAPER_DELAY_SECONDS,
       Effect.fetchHtml "https://arxiv.org/html/2401.00002v1", Effect.genCall] := rfl
  refine ⟨heff, ?_, ?_⟩
  · rw [heff]; simp
  · rw [heff]; simp

/-- C6 amended: the output string of build_email_body is a
deterministic function of the paper list, the keyword string, the
credential flag and the per-paper world responses, and factors through
the effect-free assembly assembleDigest applied to the papers and
their parallel summaries; build_email_body itself, however, fetches
each paper page once and sleeps the inter-paper delay whenever the
input holds more than one paper. -/
theorem c6_build_email_body_factors_through_pure_assembly
    (searchKeywords : String) (hasApiKey : Bool)
    (input : List (PaperInfo × FetchResponse × GenApiResult)) :
    (build_email_body searchKeywords hasApiKey input).1 =
      assembleDigest searchKeywords (input.map Prod.fst) (summaryList hasApiKey input)
    ∧ (build_email_body searchKeywords hasApiKey input).2.countP isFetchEffect = input.length
    ∧ (1 < input.length →
        Effect.sleep PER_PAPER_DELAY_SECONDS ∈ (build_email_body searchKeywords hasApiKey input).2) := by
  refine ⟨?_, ?_, ?_⟩
  · simp only [build_email_body, assembleDigest, summaryList]
    rw [paperLoop_fst, List.zip_map']
  · simp only [build_email_body]
    exact paperLoop_fetch_count hasApiKey input 1
  · intro hlen
    have hc := paperLoop_sleep_count hasApiKey input 1 (le_refl 1)
    have hpos : 0 < countSleep60 (build_email_body searchKeywords hasApiKey input).2 := by
      simp only [build_email_body]
      rw [hc]
      cases input with
      | nil => simp at hlen
      | cons a b => simp at hlen ⊢; omega
    obtain ⟨a, ha, hpa⟩ := List.countP_pos_iff.mp hpos
    have haeq : a = Effect.sleep PER_PAPER_DELAY_SECONDS := of_decide_eq_true hpa
    subst haeq
    exact ha

/-- C6 witness: the two-paper sample input. -/
theorem c6_build_email_body_factors_witness :
    Effect.sleep PER_PAPER_DELAY_SECONDS ∈ (build_email_body "b" true sampleInput2).2 :=
  (c6_build_email_body_factors_through_pure_assembly "b" true sampleInput2).2.2 (by decide)

/-- C7: the digest holds exactly one formatted section per paper, in
order; when the keyword list is non-empty the keyword section reports,
for each keyword, exactly the number of papers whose title plus
abstract contains the keyword case-insensitively, and the section is
omitted when the keyword list is empty. -/
theorem c7_digest_sections_and_keyword_counts
    (searchKeywords : String) (hasApiKey : Bool)
    (input : List (PaperInfo × FetchResponse × GenApiResult)) :
    ((build_email_body searchKeywords hasApiKey input).1 =
        emailHeader searchKeywords (input.map Prod.fst)
          ++ build_keyword_counts_section searchKeywords (input.map Prod.fst)
          ++ titleIndex (input.map Prod.fst)
          ++ concatAll (sectionList 1 ((input.map Prod.fst).zip (summaryList hasApiKey input))))
    ∧ (sectionList 1 ((input.map Prod.fst).zip (summaryList hasApiKey input))).length =
        input.length
    ∧ (parse_csv_env searchKeywords ≠ [] →
        build_keyword_counts_section searchKeywords (input.map Prod.fst) =
          joinSep "\n" ("【キーワード別対象件数】" ::
            (parse_csv_env searchKeywords).map (fun keyword =>
              "- " ++ keyword ++ ": " ++
                toString (((input.map Prod.fst).filter (fun p =>
                  strContainsSub (pyLower (p.title ++ "\n" ++ p.summary))
                    (pyLower keyword))).length)
                ++ "件")) ++ "\n\n")
    ∧ (parse_csv_env searchKeywords = [] →
        build_keyword_counts_section searchKeywords (input.map Prod.fst) = "") := by
  refine ⟨?_, ?_, ?_, ?_⟩
  · simp only [build_email_body, summaryList]
    rw [paperLoop_fst, List.zip_map']
  · simp only [summaryList]
    rw [List.zip_map', sectionList_length, List.length_map]
  · intro h
    have hfun : ∀ keyword : String,
        ((input.map Prod.fst).map (fun p => pyLower (p.title ++ "\n" ++ p.summary))).countP
            (fun text => strContainsSub text (pyLower keyword)) =
          ((input.map Prod.fst).filter (fun p =>
            strContainsSub (pyLower (p.title ++ "\n" ++ p.summary)) (pyLower keyword))).length := by
      intro keyword
      rw [List.countP_map, List.countP_eq_length_filter]
      rfl
    simp only [build_keyword_counts_section]
    rw [if_neg (by simpa using h)]
    simp only [hfun]
  · intro h
    simp [build_keyword_counts_section, h]

/-- C7 witness: a keyword string holding only a comma parses to no
keywords and the keyword section is omitted. -/
theorem c7_digest_sections_witness :
    build_keyword_counts_section "," [samplePaper1] = "" :=
  (c7_digest_sections_and_keyword_counts "," true
    [(samplePaper1, FetchResponse.transportError, GenApiResult.apiOk none)]).2.2.2 rfl

/-- C8: when the search step yields the empty paper list, main returns
at once with exit code 0: the digest builder does not run, no digest
exists, the dispatcher is not entered and no effect is performed. -/
theorem c8_empty_search_ends_run (resp : SearchResponse) (now : Int) (searchKeywords : String)
    (hasApiKey testMode mailConfigComplete : Bool)
    (world : List (FetchResponse × GenApiResult))
    (h : search_arxiv resp now = Except.ok []) :
    main_run resp now searchKeywords hasApiKey testMode mailConfigComplete world =
      Except.ok { digestBuilt := false, digestBody := none, dispatcherInvoked := false,
                  effects := [], exitCode := 0 } := by
  simp [main_run, h]

/-- C8 witness: an empty feed. -/
theorem c8_empty_search_ends_run_witness :
    main_run (SearchResponse.okFeed []) sampleNow "k" false true false [] =
      Except.ok { digestBuilt := false, digestBody := none, dispatcherInvoked := false,
                  effects := [], exitCode := 0 } :=
  c8_empty_search_ends_run (SearchResponse.okFeed []) sampleNow "k" false true false [] rfl

/-- C9: over a non-empty input of N papers the pipeline sleeps the
inter-paper delay exactly N-1 times, and never before the first paper:
the trace opens with the fetch of the first paper. -/
theorem c9_inter_paper_delay_exactly_n_minus_one
    (searchKeywords : String) (hasApiKey : Bool)
    (input : List (PaperInfo × FetchResponse × GenApiResult)) (h : input ≠ []) :
    countSleep60 (build_email_body searchKeywords hasApiKey input).2 = input.length - 1
    ∧ (∀ paper fetchResp apiResp rest, input = (paper, fetchResp, apiResp) :: rest →
        (build_email_body searchKeywords hasApiKey input).2 =
          Effect.fetchHtml paper.html_link ::
            ((generate_summary_with_gemini hasApiKey paper
                (summarization_input (fetch_paper_full_text fetchResp) paper.summary)
                apiResp).2
              ++ (paperLoop hasApiKey 2 rest).2)) := by
  constructor
  · have hc := paperLoop_sleep_count hasApiKey input 1 (le_refl 1)
    simp only [build_email_body]
    rw [hc]
    cases input with
    | nil => exact absurd rfl h
    | cons a b => simp
  · intro paper fetchResp apiResp rest hinp
    subst hinp
    simp [build_email_body, paperLoop]

/-- C9 witness: the two-paper sample input sleeps exactly once. -/
theorem c9_inter_paper_delay_witness :
    countSleep60 (build_email_body "a" false sampleInput2).2 = 1 :=
  (c9_inter_paper_delay_exactly_n_minus_one "a" false sampleInput2 (by decide)).1

/-- C10: the abstract substitution fires exactly on a falsy fetch
result: a none or empty-string result is replaced by the abstract and
any other result passes through unchanged; a fetched page whose
content container holds no visible text yields the empty string. -/
theorem c10_falsy_fetch_result_substitutes_abstract (res : Option String) (abstract : String) :
    ((res = none ∨ res = some "") → summarization_input res abstract = abstract)
    ∧ (∀ s, res = some s → s ≠ "" → summarization_input res abstract = s)
    ∧ fetch_paper_full_text (FetchResponse.okPage
        { contentDiv := some [{ tag := HtmlTag.headerTag, text := "Header only" }],
          bodyText := "body" }) = some "" := by
  refine ⟨?_, ?_, rfl⟩
  · rintro (rfl | rfl)
    · rfl
    · rfl
  · rintro s rfl hs
    simp [summarization_input, hs]

/-- C10 witness: an empty fetched text is replaced by the abstract and
a nonempty fetched text is kept. -/
theorem c10_falsy_fetch_substitutes_witness :
    summarization_input (some "") "A1" = "A1" ∧ summarization_input (some "T") "A1" = "T" :=
  ⟨(c10_falsy_fetch_result_substitutes_abstract (some "") "A1").1 (Or.inr rfl),
   (c10_falsy_fetch_result_substitutes_abstract (some "T") "A1").2.1 "T" rfl (by decide)⟩

end ArxivAlerter
